import Mathlib

/-!
Shallow embedding of `src/lib/aws-common.js` (bridgeit/bridgeit-common), the
naming, caching and idempotent-provisioning layer over AWS SNS/SQS.

Pure helpers of the source become Lean functions; the process-wide ARN cache
becomes explicit state passed through a step function; provider calls
(createQueue, listTopics, subscribe, setTopicAttributes, ...) are abstracted
as explicit inputs or resolver parameters of the embedded operations feeding
the very callbacks the source wires to them; fallible paths return
`Except String` carrying the source's error-message strings.
-/

namespace AwsCommon

/-! ## JavaScript string primitives used by the source -/

/-- JS `s.substring(0, n)` on our char-list view of strings. -/
def strTake (s : String) (n : Nat) : String := String.mk (s.toList.take n)

/-- JS `s.substring(n)` on our char-list view of strings. -/
def strDrop (s : String) (n : Nat) : String := String.mk (s.toList.drop n)

/-- Scan of the haystack for the needle, reporting the first index at which
the needle is a prefix of the remaining haystack. -/
def subIndexAux (needle : List Char) : List Char → Nat → Option Nat
  | [], i => if needle.isPrefixOf ([] : List Char) then some i else none
  | c :: rest, i =>
    if needle.isPrefixOf (c :: rest) then some i
    else subIndexAux needle rest (i + 1)

/-- JS `hay.indexOf(pat)`: first occurrence index, `-1` when absent. -/
def jsIndexOfStr (hay pat : String) : Int :=
  match subIndexAux pat.toList hay.toList 0 with
  | some i => Int.ofNat i
  | none => -1

/-- JS `a || b` for an optionally-present string environment value: an absent
or empty string is falsy and yields the default. -/
def jsOrString (a : Option String) (b : String) : String :=
  match a with
  | none => b
  | some s => if s = "" then b else s

/-- JS `length || 24` in `isValidName`: an absent or zero length is falsy. -/
def jsOrNat (a : Option Nat) (b : Nat) : Nat :=
  match a with
  | none => b
  | some n => if n = 0 then b else n

/-! ## NameValidator (`isValidName`, `isValidTopicName`, `isValidQueueName`) -/

/-- One character of the regex class `[a-zA-Z0-9\-\_]` built in `isValidName`. -/
def isNameChar (c : Char) : Bool :=
  (decide ('a' ≤ c) && decide (c ≤ 'z')) ||
  (decide ('A' ≤ c) && decide (c ≤ 'Z')) ||
  (decide ('0' ≤ c) && decide (c ≤ '9')) ||
  c == '-' || c == '_'

/-- Matching against the anchored regex `^([a-zA-Z0-9\-\_]){1,numOfChars}$`:
the whole string is 1..numOfChars repetitions of the character class. -/
def regexNameTest (s : String) (numOfChars : Nat) : Bool :=
  decide (1 ≤ s.length) && decide (s.length ≤ numOfChars) && s.toList.all isNameChar

/-- `isValidName(name, length)`: an absent or empty name is falsy and rejected
before the regex test; the length argument defaults to 24 when falsy. -/
def isValidName (name : Option String) (length : Option Nat) : Bool :=
  match name with
  | none => false
  | some s =>
    if s = "" then false
    else regexNameTest s (jsOrNat length 24)

/-- `isValidTopicName(topicName)`. -/
def isValidTopicName (topicName : Option String) : Bool :=
  isValidName topicName (some 24)

/-- `isValidQueueName(queueName)`. -/
def isValidQueueName (queueName : Option String) : Bool :=
  isValidName queueName (some 80)

/-- The reserved topic name used when a single queue is subscribed to
multiple topics (`MULTIPLE_TOPICS`). -/
def MULTIPLE_TOPICS : String := "multipleTopics"

/-- `getTopicName(topicNames)`: the single topic name when the array has
exactly one element, the multi-topic sentinel otherwise. -/
def getTopicName (topicNames : List String) : String :=
  if topicNames.length = 1 then topicNames.headD "" else MULTIPLE_TOPICS

/-! ## JavaScript values appearing in events and policy statements -/

mutual
/-- The fragment of JavaScript values the module manipulates: strings,
numbers, booleans, null, undefined and plain objects. -/
inductive JVal where
  | vStr (s : String)
  | vNum (n : Int)
  | vBool (b : Bool)
  | vNull
  | vUndef
  | vObj (fields : JFields)
deriving DecidableEq

/-- Ordered own enumerable properties of a JS object. -/
inductive JFields where
  | nil
  | cons (key : String) (val : JVal) (rest : JFields)
deriving DecidableEq
end

/-- lodash `_.isUndefined(value)`. -/
def jsIsUndefined : JVal → Bool
  | .vUndef => true
  | _ => false

/-- lodash `_.isEmpty(value)`: null/undefined are empty, a string is empty
iff it has no characters, numbers and booleans are always empty, and an
object is empty iff it has no own enumerable properties. -/
def jsIsEmpty : JVal → Bool
  | .vStr s => s = ""
  | .vNum _ => true
  | .vBool _ => true
  | .vNull => true
  | .vUndef => true
  | .vObj .nil => true
  | .vObj (.cons _ _ _) => false

/-- lodash `_.isString(value)`. -/
def jsIsString : JVal → Bool
  | .vStr _ => true
  | _ => false

/-- lodash `_.isNumber(value)`. -/
def jsIsNumber : JVal → Bool
  | .vNum _ => true
  | _ => false

/-- lodash `_.isObject(value)` (null is not an object). -/
def jsIsObject : JVal → Bool
  | .vObj _ => true
  | _ => false

/-- JS `value.toString()` for a number. -/
def jsNumToString (n : Int) : String := toString n

/-- Escape of one character inside a JSON string literal. -/
def jsonEscapeChar (c : Char) : String :=
  if c = '"' then "\\\""
  else if c = '\\' then "\\\\"
  else String.singleton c

/-- A JSON string literal for `s`. -/
def jsonQuote (s : String) : String :=
  "\"" ++ (s.toList.foldr (fun c acc => jsonEscapeChar c ++ acc) "") ++ "\""

mutual
/-- JS `JSON.stringify(value)`: `none` models the `undefined` result on an
undefined input; object properties whose value serializes to `undefined`
are skipped. -/
def jsonStringify : JVal → Option String
  | .vStr s => some (jsonQuote s)
  | .vNum n => some (jsNumToString n)
  | .vBool b => some (if b then "true" else "false")
  | .vNull => some "null"
  | .vUndef => none
  | .vObj fields =>
    some ("\x7b" ++ String.intercalate "," (jsonFieldStrings fields) ++ "\x7d")

/-- The serialized `"key":value` pieces of an object, skipping properties
whose value does not serialize. -/
def jsonFieldStrings : JFields → List String
  | .nil => []
  | .cons k v rest =>
    match jsonStringify v with
    | none => jsonFieldStrings rest
    | some sv => (jsonQuote k ++ ":" ++ sv) :: jsonFieldStrings rest
end

/-! ## EventPublisher: event → message attributes -/

/-- One SNS message attribute as built by `convertPropertyToAttribute`. -/
structure MessageAttribute where
  dataType : String
  stringValue : String
deriving DecidableEq

/-- `convertPropertyToAttribute(key, value)` (the value stored under the key
of the returned one-property object; `none` models the `undefined` result of
the fall-through branch): undefined or lodash-empty values get the literal
filler string, then strings map to String attributes, then numbers map to
Number attributes, and anything else is dropped with a diagnostic. -/
def convertPropertyToAttribute (value : JVal) : Option MessageAttribute :=
  if jsIsUndefined value || jsIsEmpty value then
    some { dataType := "String", stringValue := "[value is undefined]" }
  else if jsIsString value then
    some { dataType := "String",
           stringValue := match value with | .vStr s => s | _ => "" }
  else if jsIsNumber value then
    some { dataType := "Number",
           stringValue := match value with | .vNum n => jsNumToString n | _ => "" }
  else
    none

/-- `convertEventToMessageAttributes(event)` over the event's own enumerable
properties in order: undefined values are skipped with a warning, object
values are skipped, and every other value goes through
`convertPropertyToAttribute`, whose defined results are collected. -/
def convertEventToMessageAttributes (event : List (String × JVal)) :
    List (String × MessageAttribute) :=
  event.foldl (fun attrs kv =>
    if jsIsUndefined kv.2 then attrs
    else if jsIsObject kv.2 then attrs
    else
      match convertPropertyToAttribute kv.2 with
      | some a => attrs ++ [(kv.1, a)]
      | none => attrs) []

/-! ## Identity resolution (`getEnvironmentName` host branch, `getServiceName`) -/

/-- The part of `getEnvironmentName` that derives a raw name from
`voyent_config.default.host`: everything before the first dot when the host
contains one at a positive index, the whole host otherwise. -/
def hostDerivedName (host : String) : String :=
  let firstDot := jsIndexOfStr host "."
  if firstDot > 0 then strTake host firstDot.toNat else host

/-- The environment name `getEnvironmentName` computes from the remote host
lookup: the host-derived name, cut by `substring(0, 11)` when its length
exceeds 12. -/
def hostToEnvironmentName (host : String) : String :=
  let environmentName := hostDerivedName host
  if environmentName.length > 12 then strTake environmentName 11
  else environmentName

/-- `getServiceName()` as a function of the `SERVICE_NAME` environment
variable: default placeholder when unset or empty, cut by
`substring(0, 23)` when its length exceeds 24. -/
def getServiceName (serviceNameEnv : Option String) : String :=
  let serviceName := jsOrString serviceNameEnv "SERVICE_NAME_UNKNOWN"
  if serviceName.length > 24 then strTake serviceName 23
  else serviceName

/-! ## ArnCache (`cachedTopicArns`, `cacheTopicArns`, `getTopicArn`) -/

/-- Lookup in the `cachedTopicArns` object. -/
def cacheGet (cache : List (String × String)) (key : String) : Option String :=
  match cache with
  | [] => none
  | (k, v) :: rest => if k = key then some v else cacheGet rest key

/-- JS property assignment `cachedTopicArns[key] = value`: replaces an
existing entry, appends otherwise. -/
def cacheSet (cache : List (String × String)) (key value : String) :
    List (String × String) :=
  match cache with
  | [] => [(key, value)]
  | (k, v) :: rest =>
    if k = key then (key, value) :: rest else (k, v) :: cacheSet rest key value

/-- `cacheTopicArns`: for every listed topic ARN containing the marker
`envName ++ "_"`, store the bare name after the marker under that name,
overwriting any previous entry.  The full paginated listing is the
`allTopics` input. -/
def cacheTopicArns (envName : String) (allTopics : List String)
    (cache : List (String × String)) : List (String × String) :=
  allTopics.foldl (fun c arn =>
    let envMarker := envName ++ "_"
    let envNameIndex := jsIndexOfStr arn envMarker
    if envNameIndex ≥ 0 then
      let envTopicName := strDrop arn envNameIndex.toNat
      let topicName := strDrop envTopicName envMarker.length
      cacheSet c topicName arn
    else c) cache

/-- Everything one call of `getTopicArn` produces: the callback value, the
cache afterwards, and whether a topic listing (`cacheTopicArns` refresh)
was performed. -/
structure ResolveResult where
  result : Except String String
  cache : List (String × String)
  listedTopics : Bool

/-- `getTopicArn(topicName, cb)` with the provider listing the refresh would
observe passed explicitly: invalid names fail synchronously; a cached name
is answered without any listing; otherwise one refresh runs and the cache is
re-checked, failing with the source's error message if still absent. -/
def getTopicArn (envName : String) (cache : List (String × String))
    (topicName : String) (listing : List String) : ResolveResult :=
  if isValidTopicName (some topicName) = false then
    { result := .error ("invalid topic name " ++ topicName),
      cache := cache, listedTopics := false }
  else
    match cacheGet cache topicName with
    | some arn => { result := .ok arn, cache := cache, listedTopics := false }
    | none =>
      let cache1 := cacheTopicArns envName listing cache
      match cacheGet cache1 topicName with
      | some arn => { result := .ok arn, cache := cache1, listedTopics := true }
      | none =>
        { result := .error ("cannot get ARN for " ++ topicName),
          cache := cache1, listedTopics := true }

/-! ## ArnResolutionQueue call sites -/

/-- How a call site reaches `getTopicArn`: through the single-concurrency
`arnQueue` (`queuedGetTopicArn`, the exported `getTopicArn`) or by invoking
the raw function directly. -/
inductive ArnLookupKind where
  | queued
  | direct
deriving DecidableEq

/-- The module operations that resolve a topic ARN. -/
inductive ModuleOp where
  | deleteTopicOp
  | publishMessageToTopicOp
  | subscribeQueueToTopicOp
  | setFilterForSubscriptionOp
  | addToTopicPolicyOp
deriving DecidableEq

/-- The topic-ARN resolution calls each operation makes, read off the source:
`deleteTopic` (line 617), `publishMessageToTopic` (line 1175),
`subscribeQueueToTopic` (line 1413) and `setFilterForSubscription`
(line 1538) each call `queuedGetTopicArn`, while `addToTopicPolicy`
(line 1856) calls the raw `getTopicArn` directly. -/
def opArnLookups : ModuleOp → List ArnLookupKind
  | .deleteTopicOp => [.queued]
  | .publishMessageToTopicOp => [.queued]
  | .subscribeQueueToTopicOp => [.queued]
  | .setFilterForSubscriptionOp => [.queued]
  | .addToTopicPolicyOp => [.direct]

/-! ## SubscriptionManager (`subscribeQueueToTopic`, `createSubscription`) -/

/-- One SNS subscription record as the provider reports it. -/
structure Subscription where
  topicArn : String
  protocol : String
  endpoint : String
  subscriptionArn : String
deriving DecidableEq

/-- The provider-side state the subscription operations read and write. -/
structure SnsWorld where
  subscriptions : List Subscription
deriving DecidableEq

/-- `getSubscriptionsForTopic(topicArn)`: the `listSubscriptionsByTopic`
result, the subscriptions of that topic. -/
def subscriptionsForTopic (w : SnsWorld) (topicArn : String) :
    List Subscription :=
  w.subscriptions.filter (fun sub => sub.topicArn == topicArn)

/-- `checkQueueAlreadySubscribed`: `_.find` of a listed subscription whose
`Endpoint` equals the queue ARN. -/
def checkQueueAlreadySubscribed (subs : List Subscription)
    (queueArn : String) : Option Subscription :=
  subs.find? (fun sub => queueArn == sub.endpoint)

/-- The queue ARN `subscribeQueueToTopic` resolves: `getQueueArn` under the
`MULTIPLE_TOPICS` qualification when `isMultiTopic === true`, under the
topic name otherwise. -/
def resolvedQueueArn (queueArnOf : String → String → String)
    (topicName : String) (isMultiTopic : Bool) (queueName : String) : String :=
  if isMultiTopic then queueArnOf MULTIPLE_TOPICS queueName
  else queueArnOf topicName queueName

/-- `subscribeQueueToTopic(topicName, isMultiTopic, queueName, cb)` on the
success path of ARN resolution, with the resolvers passed as deterministic
functions (`topicArnOf` standing for `queuedGetTopicArn`, `queueArnOf` for
`getQueueArn`) and `freshSubArn` the ARN the provider would assign to a
newly created subscription: validate both names, resolve both ARNs, return
any existing subscription with the queue's endpoint unchanged, and
otherwise create one with protocol `sqs`. -/
def subscribeQueueToTopic (w : SnsWorld)
    (topicArnOf : String → String) (queueArnOf : String → String → String)
    (freshSubArn : String)
    (topicName : String) (isMultiTopic : Bool) (queueName : String) :
    Except String (Subscription × SnsWorld) :=
  if isValidTopicName (some topicName) = false then
    .error ("topic name is invalid " ++ topicName)
  else if isValidQueueName (some queueName) = false then
    .error ("queue name is invalid " ++ queueName)
  else
    let topicArn := topicArnOf topicName
    let queueArn := resolvedQueueArn queueArnOf topicName isMultiTopic queueName
    match checkQueueAlreadySubscribed (subscriptionsForTopic w topicArn) queueArn with
    | some sub => .ok (sub, w)
    | none =>
      let sub : Subscription :=
        { topicArn := topicArn, protocol := "sqs",
          endpoint := queueArn, subscriptionArn := freshSubArn }
      .ok (sub, { subscriptions := w.subscriptions ++ [sub] })

/-- The number of subscriptions of a given queue endpoint to a given topic
in the provider state. -/
def countSubs (w : SnsWorld) (topicArn queueArn : String) : Nat :=
  (w.subscriptions.filter
    (fun sub => sub.topicArn == topicArn && sub.endpoint == queueArn)).length

/-- A declarative subscription descriptor as accepted by
`createSubscription`. -/
structure SubscriptionDescriptor where
  topicNames : List String
  queueName : String
  filter : Option JVal
deriving DecidableEq

/-- The topic name under which `createSubscription` qualifies and creates
its single queue (`let topicName = getTopicName(subscription.topicNames)`
at line 1690). -/
def createSubscriptionQueueTopicName (subscription : SubscriptionDescriptor) :
    String :=
  getTopicName subscription.topicNames

/-! ## PolicyEditor (`updateCurrentPolicy`, `addToTopicPolicy`) -/

/-- `updateCurrentPolicy(topicArn, currentPolicy, newStatement, cb)` at the
statement-list level: when some current statement stringifies identically
to the new one, the policy is returned unchanged and nothing is written;
otherwise the statement is appended and the policy is written back.  The
Bool records whether a `setTopicAttributes` write was issued. -/
def updateCurrentPolicy (currentStatements : List JVal) (newStatement : JVal) :
    List JVal × Bool :=
  if currentStatements.any
      (fun currentStatement =>
        decide (jsonStringify currentStatement = jsonStringify newStatement)) then
    (currentStatements, false)
  else
    (currentStatements ++ [newStatement], true)

/-- The number of statements of a policy that stringify identically to the
given statement. -/
def countMatchingStatements (statements : List JVal) (statement : JVal) : Nat :=
  (statements.filter
    (fun t => decide (jsonStringify t = jsonStringify statement))).length

/-! ## deleteTopic -/

/-- `deleteTopic(topicName, cb)`: after the synchronous name validation the
resolution callback never inspects its error argument, so the provider
delete call (`providerDelete`, receiving the possibly-undefined `TopicArn`
parameter) is issued with `none` when resolution failed; the `getClients`
outcome is threaded as `clientsRes`. -/
def deleteTopic (topicName : String)
    (arnRes : Except String String)
    (clientsRes : Except String Unit)
    (providerDelete : Option String → Except String String) :
    Except String String :=
  if isValidTopicName (some topicName) = false then
    .error ("topic name is invalid " ++ topicName)
  else
    let topicArn : Option String :=
      match arnRes with
      | .ok arn => some arn
      | .error _ => none
    match clientsRes with
    | .error e => .error e
    | .ok _ => providerDelete topicArn

/-! ## Batch queue operations (`createQueues`, `deleteQueues`)

`async.map(names, iteratee, done)` invokes its iteratee with exactly the two
arguments `(item, callback)`.  `createQueue` and `deleteQueue` however take
three parameters `(topicName, queueName, cb)`, so inside each per-item call
`topicName` is bound to the array element, `queueName` to the per-item
callback function, and `cb` to `undefined`.
-/

/-- A JS argument value as it reaches `isValidName` from these call sites. -/
inductive JSArg where
  | strArg (s : String)
  | fnArg
  | undefArg
deriving DecidableEq

/-- The string JS coerces the argument to inside `RegExp.test`.  A function
coerces to its own source text; any function source contains a space and
parentheses, characters outside the name character class, so the concrete
representative below only needs those. -/
def jsArgToStringCoercion : JSArg → String
  | .strArg s => s
  | .fnArg => "function (err, result)"
  | .undefArg => "undefined"

/-- `isValidName(name, length)` on a general JS argument: `undefined` is
falsy and rejected, a function is truthy and goes through the regex test on
its string coercion, and a string behaves as in `isValidName`. -/
def isValidNameArg (name : JSArg) (length : Option Nat) : Bool :=
  match name with
  | .undefArg => false
  | .fnArg => regexNameTest (jsArgToStringCoercion .fnArg) (jsOrNat length 24)
  | .strArg s => isValidName (some s) length

/-- What one `async.map` per-item invocation of `createQueue`/`deleteQueue`
does before any provider call. -/
inductive MapItemOutcome where
  | threwTypeError
  | proceeded
deriving DecidableEq

/-- One `async.map` invocation `createQueue(name, callback)`: either name
validation failing calls `cb(new Error(...))` with `cb = undefined`, which
throws a TypeError.  The queue-name check runs on the callback function
bound to `queueName`.  `deleteQueue(name, callback)` performs the identical
two validations first, so this also models its per-item prefix. -/
def queueItemViaMap (name : String) : MapItemOutcome :=
  if isValidTopicName (some name) = false then .threwTypeError
  else if isValidNameArg .fnArg (some 80) = false then .threwTypeError
  else .proceeded

/-- Outcome of a whole batch call as its caller observes it. -/
inductive BatchOutcome where
  | ok (results : List String)
  | err (message : String)
  | thrown
deriving DecidableEq

/-- `createQueues(names, cb)`: the array validation, then `async.map` with
`createQueue` as iteratee.  The map invokes the iteratee on the first item
synchronously; a synchronous TypeError escapes to the caller, so the batch
callback is never reached.  The `proceeded` arm never occurs (the
queue-name check always fails on a function value, see
`queueItemViaMap_always_throws`); its value is irrelevant. -/
def createQueues (names : Option (List String)) : BatchOutcome :=
  match names with
  | none => .err "no array of queue names provided"
  | some [] => .err "no array of queue names provided"
  | some (n :: _) =>
    match queueItemViaMap n with
    | .threwTypeError => .thrown
    | .proceeded => .ok []

/-- `deleteQueues(names, cb)`: same shape as `createQueues` with
`deleteQueue` as iteratee, which performs the identical two validations
with the identical arity mismatch. -/
def deleteQueues (names : Option (List String)) : BatchOutcome :=
  match names with
  | none => .err "no array of queue names provided"
  | some [] => .err "no array of queue names provided"
  | some (n :: _) =>
    match queueItemViaMap n with
    | .threwTypeError => .thrown
    | .proceeded => .ok []

end AwsCommon

namespace AwsCommon

/-! ## Supporting lemmas -/

theorem strTake_length (s : String) (n : Nat) :
    (strTake s n).length = min n s.length := by
  show (s.toList.take n).length = min n s.length
  rw [List.length_take]
  rfl

theorem isNameChar_iff (c : Char) : isNameChar c = true ↔
    ('a' ≤ c ∧ c ≤ 'z') ∨ ('A' ≤ c ∧ c ≤ 'Z') ∨
    ('0' ≤ c ∧ c ≤ '9') ∨ c = '-' ∨ c = '_' := by
  simp [isNameChar, Bool.or_eq_true, Bool.and_eq_true, decide_eq_true_eq,
    beq_iff_eq, or_assoc]

theorem isValidName_some_iff (s : String) (n : Nat) (hn : ¬ n = 0) :
    isValidName (some s) (some n) = true ↔
      1 ≤ s.length ∧ s.length ≤ n ∧
        ∀ c ∈ s.toList,
          ('a' ≤ c ∧ c ≤ 'z') ∨ ('A' ≤ c ∧ c ≤ 'Z') ∨
          ('0' ≤ c ∧ c ≤ '9') ∨ c = '-' ∨ c = '_' := by
  by_cases hs : s = ""
  · subst hs
    rw [show isValidName (some "") (some n) = false from rfl]
    simp [show ("" : String).length = 0 from rfl]
  · simp [isValidName, hs, regexNameTest, jsOrNat, hn, Bool.and_eq_true,
      decide_eq_true_eq, List.all_eq_true, isNameChar_iff, and_assoc]

theorem find_append_of_none {α : Type} (p : α → Bool) (l₁ l₂ : List α)
    (h : l₁.find? p = none) : (l₁ ++ l₂).find? p = l₂.find? p := by
  induction l₁ with
  | nil => rfl
  | cons a t ih =>
    by_cases hp : p a = true
    · rw [List.find?_cons_of_pos _ hp] at h
      exact absurd h (by simp)
    · rw [List.find?_cons_of_neg _ hp] at h
      rw [List.cons_append, List.find?_cons_of_neg _ hp]
      exact ih h

theorem check_none_of_count_zero (w : SnsWorld) (tA qA : String)
    (h : countSubs w tA qA = 0) :
    checkQueueAlreadySubscribed (subscriptionsForTopic w tA) qA = none := by
  unfold countSubs at h
  have hnil := List.length_eq_zero.mp h
  have hall := List.filter_eq_nil_iff.mp hnil
  unfold checkQueueAlreadySubscribed subscriptionsForTopic
  rw [List.find?_eq_none]
  intro sub hsub
  have hmem := List.mem_filter.mp hsub
  intro hq
  apply hall sub hmem.1
  have h1 : (sub.topicArn == tA) = true := hmem.2
  have h2 : sub.endpoint = qA := (beq_iff_eq.mp hq).symm
  rw [Bool.and_eq_true]
  exact ⟨h1, beq_iff_eq.mpr h2⟩

theorem subscribe_creates (w : SnsWorld)
    (topicArnOf : String → String) (queueArnOf : String → String → String)
    (subArn : String) (topicName queueName : String) (isMultiTopic : Bool)
    (hT : isValidTopicName (some topicName) = true)
    (hQ : isValidQueueName (some queueName) = true)
    (hchk : checkQueueAlreadySubscribed
      (subscriptionsForTopic w (topicArnOf topicName))
      (resolvedQueueArn queueArnOf topicName isMultiTopic queueName) = none) :
    subscribeQueueToTopic w topicArnOf queueArnOf subArn
      topicName isMultiTopic queueName
    = .ok ({ topicArn := topicArnOf topicName, protocol := "sqs",
             endpoint := resolvedQueueArn queueArnOf topicName isMultiTopic queueName,
             subscriptionArn := subArn },
           { subscriptions := w.subscriptions ++
             [{ topicArn := topicArnOf topicName, protocol := "sqs",
                endpoint := resolvedQueueArn queueArnOf topicName isMultiTopic queueName,
                subscriptionArn := subArn }] }) := by
  unfold subscribeQueueToTopic
  rw [hT, hQ, if_neg (by simp : ¬ (true = false)),
    if_neg (by simp : ¬ (true = false))]
  simp only [hchk]

theorem subscribe_finds (w : SnsWorld)
    (topicArnOf : String → String) (queueArnOf : String → String → String)
    (subArn : String) (topicName queueName : String) (isMultiTopic : Bool)
    (sub : Subscription)
    (hT : isValidTopicName (some topicName) = true)
    (hQ : isValidQueueName (some queueName) = true)
    (hchk : checkQueueAlreadySubscribed
      (subscriptionsForTopic w (topicArnOf topicName))
      (resolvedQueueArn queueArnOf topicName isMultiTopic queueName) = some sub) :
    subscribeQueueToTopic w topicArnOf queueArnOf subArn
      topicName isMultiTopic queueName = .ok (sub, w) := by
  unfold subscribeQueueToTopic
  rw [hT, hQ, if_neg (by simp : ¬ (true = false)),
    if_neg (by simp : ¬ (true = false))]
  simp only [hchk]

theorem queueItemViaMap_always_throws (name : String) :
    queueItemViaMap name = .threwTypeError := by
  unfold queueItemViaMap
  by_cases h : isValidTopicName (some name) = false
  · rw [if_pos h]
  · rw [if_neg h, if_pos (by decide)]

end AwsCommon

namespace AwsCommon

/-! ## Claim theorems -/

/-- C1: evaluating `convertEventToMessageAttributes` at the event
`{a: "x", b: 5, c: {nested: 1}, d: undefined}` yields a String attribute
"x" for `a`, a String attribute with the filler value for `b` (lodash
`isEmpty(5)` is true, so the Number branch never fires), no entry for `c`,
and no entry for `d` (undefined values are skipped before
`convertPropertyToAttribute` is reached). -/
theorem convertEvent_drops_numbers_and_undefined :
    convertEventToMessageAttributes
      [("a", JVal.vStr "x"), ("b", JVal.vNum 5),
       ("c", JVal.vObj (JFields.cons "nested" (JVal.vNum 1) JFields.nil)),
       ("d", JVal.vUndef)]
    = [("a", { dataType := "String", stringValue := "x" }),
       ("b", { dataType := "String", stringValue := "[value is undefined]" })] := by
  decide

/-- C2 counterexample: after `getTopicArn` succeeds for "x" with ARN
"p:e_x", a later miss for "y" triggers a refresh whose listing carries a
different ARN containing "e_x", and the cache entry for "x" is silently
replaced: the third resolution of "x" returns "q:e_x", not the originally
returned "p:e_x". -/
theorem cached_arn_can_be_replaced_by_refresh :
    (getTopicArn "e" [] "x" ["p:e_x"]).result = Except.ok "p:e_x"
  ∧ (getTopicArn "e" (getTopicArn "e" [] "x" ["p:e_x"]).cache "y"
      ["q:e_x", "p:e_y"]).result = Except.ok "p:e_y"
  ∧ (getTopicArn "e" (getTopicArn "e" (getTopicArn "e" [] "x"
      ["p:e_x"]).cache "y" ["q:e_x", "p:e_y"]).cache "x" []).result
      = Except.ok "q:e_x"
  ∧ "q:e_x" ≠ "p:e_x" :=
  ⟨rfl, rfl, rfl, by decide⟩

/-- C2 amended: as long as the cache still holds an entry for the topic
name, `getTopicArn` answers from the cache without any topic listing,
returns exactly the cached ARN, and leaves the cache unchanged. -/
theorem getTopicArn_cache_hit (envName : String)
    (cache : List (String × String)) (topicName arn : String)
    (listing : List String)
    (hv : isValidTopicName (some topicName) = true)
    (hc : cacheGet cache topicName = some arn) :
    getTopicArn envName cache topicName listing
      = { result := .ok arn, cache := cache, listedTopics := false } := by
  unfold getTopicArn
  rw [hv, hc]
  rfl

/-- C2 witness: a concrete cache hit. -/
theorem getTopicArn_cache_hit_witness :
    getTopicArn "e" [("x", "p:e_x")] "x" []
      = { result := .ok "p:e_x", cache := [("x", "p:e_x")],
          listedTopics := false } :=
  getTopicArn_cache_hit "e" [("x", "p:e_x")] "x" "p:e_x" [] (by decide) rfl

/-- C3: starting from a provider state with no subscription of the resolved
queue ARN to the resolved topic ARN, a first `subscribeQueueToTopic` call
creating subscription `s1` is followed by a second call with the same topic
name, multi-topic flag and queue name that returns exactly `s1` and leaves
the provider state unchanged; afterwards exactly one such subscription
exists. -/
theorem subscribeQueueToTopic_idempotent
    (w0 w1 : SnsWorld) (s1 : Subscription)
    (topicArnOf : String → String) (queueArnOf : String → String → String)
    (subArn1 subArn2 : String)
    (topicName queueName : String) (isMultiTopic : Bool)
    (hT : isValidTopicName (some topicName) = true)
    (hQ : isValidQueueName (some queueName) = true)
    (h0 : countSubs w0 (topicArnOf topicName)
      (resolvedQueueArn queueArnOf topicName isMultiTopic queueName) = 0)
    (h1 : subscribeQueueToTopic w0 topicArnOf queueArnOf subArn1
      topicName isMultiTopic queueName = .ok (s1, w1)) :
    subscribeQueueToTopic w1 topicArnOf queueArnOf subArn2
      topicName isMultiTopic queueName = .ok (s1, w1)
  ∧ s1.endpoint = resolvedQueueArn queueArnOf topicName isMultiTopic queueName
  ∧ countSubs w1 (topicArnOf topicName)
      (resolvedQueueArn queueArnOf topicName isMultiTopic queueName) = 1 := by
  set tA := topicArnOf topicName with htA
  set qA := resolvedQueueArn queueArnOf topicName isMultiTopic queueName with hqA
  have hchk := check_none_of_count_zero w0 tA qA h0
  have hcreate := subscribe_creates w0 topicArnOf queueArnOf subArn1
    topicName queueName isMultiTopic hT hQ hchk
  have hpair := h1.symm.trans hcreate
  injection hpair with hpq
  rw [Prod.mk.injEq] at hpq
  obtain ⟨hs1, hw1⟩ := hpq
  subst hs1
  subst hw1
  unfold checkQueueAlreadySubscribed subscriptionsForTopic at hchk
  have hnil : w0.subscriptions.filter
      (fun sub => sub.topicArn == tA && sub.endpoint == qA) = [] := by
    have := List.length_eq_zero.mp h0
    exact this
  have hchk2 : checkQueueAlreadySubscribed
      (subscriptionsForTopic
        { subscriptions := w0.subscriptions ++
          [{ topicArn := tA, protocol := "sqs", endpoint := qA,
             subscriptionArn := subArn1 }] } tA) qA
      = some { topicArn := tA, protocol := "sqs", endpoint := qA,
               subscriptionArn := subArn1 } := by
    unfold checkQueueAlreadySubscribed subscriptionsForTopic
    show ((w0.subscriptions ++
      [({ topicArn := tA, protocol := "sqs", endpoint := qA,
          subscriptionArn := subArn1 } : Subscription)]).filter
        (fun sub : Subscription => sub.topicArn == tA)).find?
        (fun sub : Subscription => qA == sub.endpoint) = _
    rw [List.filter_append, find_append_of_none _ _ _ hchk]
    simp
  refine ⟨?_, rfl, ?_⟩
  · exact subscribe_finds _ topicArnOf queueArnOf subArn2
      topicName queueName isMultiTopic _ hT hQ hchk2
  · unfold countSubs
    show ((w0.subscriptions ++
      [({ topicArn := tA, protocol := "sqs", endpoint := qA,
          subscriptionArn := subArn1 } : Subscription)]).filter
        (fun sub : Subscription =>
          sub.topicArn == tA && sub.endpoint == qA)).length = 1
    rw [List.filter_append, hnil]
    simp

/-- C3 witness: a concrete second call finding the subscription the first
call created. -/
theorem subscribeQueueToTopic_idempotent_witness :
    subscribeQueueToTopic
      { subscriptions :=
          [({ topicArn := "ta", protocol := "sqs",
              endpoint := "qa", subscriptionArn := "sub1" } : Subscription)] }
      (fun _ => "ta") (fun _ _ => "qa") "sub2" "orders" false "billing"
    = .ok ({ topicArn := "ta", protocol := "sqs", endpoint := "qa",
             subscriptionArn := "sub1" },
           { subscriptions :=
               [({ topicArn := "ta", protocol := "sqs",
                   endpoint := "qa", subscriptionArn := "sub1" } : Subscription)] })
  ∧ ({ topicArn := "ta", protocol := "sqs", endpoint := "qa",
       subscriptionArn := "sub1" } : Subscription).endpoint
      = resolvedQueueArn (fun _ _ => "qa") "orders" false "billing"
  ∧ countSubs
      { subscriptions :=
          [({ topicArn := "ta", protocol := "sqs",
              endpoint := "qa", subscriptionArn := "sub1" } : Subscription)] }
      ((fun _ => "ta") "orders")
      (resolvedQueueArn (fun _ _ => "qa") "orders" false "billing") = 1 :=
  subscribeQueueToTopic_idempotent
    { subscriptions := [] }
    { subscriptions :=
        [({ topicArn := "ta", protocol := "sqs",
            endpoint := "qa", subscriptionArn := "sub1" } : Subscription)] }
    { topicArn := "ta", protocol := "sqs", endpoint := "qa",
      subscriptionArn := "sub1" }
    (fun _ => "ta") (fun _ _ => "qa") "sub1" "sub2" "orders" "billing" false
    (by decide) (by decide) rfl rfl

end AwsCommon

namespace AwsCommon

/-- C4: the queue batch operations can never apply their single-item
operation: `async.map` invokes `createQueue`/`deleteQueue` with the item
and the per-item callback only, so the queue-name parameter is a function
and the per-item `cb` is undefined; both validation branches then invoke
the undefined callback and a TypeError escapes, as evaluated here at the
one-element batch ["orders"]. -/
theorem queue_batches_throw :
    createQueues (some ["orders"]) = BatchOutcome.thrown
  ∧ deleteQueues (some ["orders"]) = BatchOutcome.thrown := by
  decide

/-- C5: `addToTopicPolicy` resolves its topic ARN by calling `getTopicArn`
directly rather than `queuedGetTopicArn`, so its lookup does not execute
through the single-concurrency `arnQueue`, while the other resolving
operations do queue their lookups. -/
theorem addToTopicPolicy_bypasses_arn_queue :
    opArnLookups ModuleOp.addToTopicPolicyOp = [ArnLookupKind.direct]
  ∧ ArnLookupKind.direct ≠ ArnLookupKind.queued
  ∧ opArnLookups ModuleOp.deleteTopicOp = [ArnLookupKind.queued]
  ∧ opArnLookups ModuleOp.publishMessageToTopicOp = [ArnLookupKind.queued]
  ∧ opArnLookups ModuleOp.subscribeQueueToTopicOp = [ArnLookupKind.queued]
  ∧ opArnLookups ModuleOp.setFilterForSubscriptionOp = [ArnLookupKind.queued] := by
  decide

/-- C6: starting from a policy with no statement stringifying like `st1`,
adding `st1` and then a statement `st2` with identical serialization leaves
the policy of the first write unchanged, issues no second write, and the
final policy holds exactly one copy of the statement. -/
theorem addToTopicPolicy_idempotent
    (stmts p1 : List JVal) (st1 st2 : JVal) (w1 : Bool)
    (hEq : jsonStringify st1 = jsonStringify st2)
    (h0 : countMatchingStatements stmts st1 = 0)
    (h1 : updateCurrentPolicy stmts st1 = (p1, w1)) :
    updateCurrentPolicy p1 st2 = (p1, false)
  ∧ countMatchingStatements p1 st1 = 1 := by
  have hnil : stmts.filter
      (fun t => decide (jsonStringify t = jsonStringify st1)) = [] :=
    List.length_eq_zero.mp h0
  have hall := List.filter_eq_nil_iff.mp hnil
  have hany : stmts.any
      (fun t => decide (jsonStringify t = jsonStringify st1)) = false := by
    rw [Bool.eq_false_iff]
    intro hx
    rcases List.any_eq_true.mp hx with ⟨t, ht, hpt⟩
    exact hall t ht hpt
  have hp1 : p1 = stmts ++ [st1] := by
    unfold updateCurrentPolicy at h1
    rw [hany] at h1
    simp only [Bool.false_eq_true, if_false] at h1
    rw [Prod.mk.injEq] at h1
    exact h1.1.symm
  subst hp1
  constructor
  · have hany2 : (stmts ++ [st1]).any
        (fun t => decide (jsonStringify t = jsonStringify st2)) = true := by
      rw [List.any_append]
      have hlast : [st1].any
          (fun t => decide (jsonStringify t = jsonStringify st2)) = true := by
        simp [hEq]
      rw [hlast, Bool.or_true]
    unfold updateCurrentPolicy
    rw [hany2]
    simp
  · unfold countMatchingStatements
    rw [List.filter_append, hnil]
    simp

/-- C6 witness: adding the same concrete statement object twice to an empty
policy. -/
theorem addToTopicPolicy_idempotent_witness :
    updateCurrentPolicy
      [JVal.vObj (JFields.cons "Effect" (JVal.vStr "Allow") JFields.nil)]
      (JVal.vObj (JFields.cons "Effect" (JVal.vStr "Allow") JFields.nil))
    = ([JVal.vObj (JFields.cons "Effect" (JVal.vStr "Allow") JFields.nil)],
       false)
  ∧ countMatchingStatements
      [JVal.vObj (JFields.cons "Effect" (JVal.vStr "Allow") JFields.nil)]
      (JVal.vObj (JFields.cons "Effect" (JVal.vStr "Allow") JFields.nil)) = 1 :=
  addToTopicPolicy_idempotent []
    [JVal.vObj (JFields.cons "Effect" (JVal.vStr "Allow") JFields.nil)]
    (JVal.vObj (JFields.cons "Effect" (JVal.vStr "Allow") JFields.nil))
    (JVal.vObj (JFields.cons "Effect" (JVal.vStr "Allow") JFields.nil))
    true rfl rfl rfl

/-- C7 counterexample: a 13-character host-derived name is cut to 11
characters, not 12, and a 25-character service override is cut to 23
characters, not 24. -/
theorem identity_truncation_off_by_one :
    12 < (hostDerivedName "abcdefghijklm.voyent.cloud").length
  ∧ hostToEnvironmentName "abcdefghijklm.voyent.cloud" = "abcdefghijk"
  ∧ (hostToEnvironmentName "abcdefghijklm.voyent.cloud").length = 11
  ∧ 24 < ("abcdefghijklmnopqrstuvwxy" : String).length
  ∧ getServiceName (some "abcdefghijklmnopqrstuvwxy")
      = "abcdefghijklmnopqrstuvw"
  ∧ (getServiceName (some "abcdefghijklmnopqrstuvwxy")).length = 23 := by
  decide

/-- C7 amended: a host-derived environment name longer than 12 characters
is truncated to its first 11 characters, a service-name override longer
than 24 characters is truncated to its first 23 characters, and an unset
override yields the placeholder. -/
theorem identity_truncation_amended (host svc : String)
    (hd : 12 < (hostDerivedName host).length)
    (hs : 24 < svc.length) :
    hostToEnvironmentName host = strTake (hostDerivedName host) 11
  ∧ (hostToEnvironmentName host).length = 11
  ∧ getServiceName (some svc) = strTake svc 23
  ∧ (getServiceName (some svc)).length = 23
  ∧ getServiceName none = "SERVICE_NAME_UNKNOWN" := by
  have hsvc : ¬ svc = "" := by
    intro h
    rw [h] at hs
    exact absurd hs (by decide)
  have h1 : hostToEnvironmentName host = strTake (hostDerivedName host) 11 := by
    unfold hostToEnvironmentName
    rw [if_pos (by omega)]
  have h2 : getServiceName (some svc) = strTake svc 23 := by
    unfold getServiceName jsOrString
    simp only [hsvc, if_false]
    rw [if_pos (by omega)]
  refine ⟨h1, ?_, h2, ?_, rfl⟩
  · rw [h1, strTake_length]
    omega
  · rw [h2, strTake_length]
    omega

/-- C7 witness: the truncations at a concrete long host and override. -/
theorem identity_truncation_amended_witness :
    hostToEnvironmentName "abcdefghijklm.v"
      = strTake (hostDerivedName "abcdefghijklm.v") 11
  ∧ (hostToEnvironmentName "abcdefghijklm.v").length = 11
  ∧ getServiceName (some "abcdefghijklmnopqrstuvwxy")
      = strTake "abcdefghijklmnopqrstuvwxy" 23
  ∧ (getServiceName (some "abcdefghijklmnopqrstuvwxy")).length = 23
  ∧ getServiceName none = "SERVICE_NAME_UNKNOWN" :=
  identity_truncation_amended "abcdefghijklm.v" "abcdefghijklmnopqrstuvwxy"
    (by decide) (by decide)

end AwsCommon

namespace AwsCommon

/-- C8: for every string, the topic validator accepts exactly the strings
of length 1..24 over the character set, the queue validator exactly those
of length 1..80, and an absent name is rejected by both. -/
theorem name_validation_characterization (s : String) :
    (isValidTopicName (some s) = true ↔
      1 ≤ s.length ∧ s.length ≤ 24 ∧
        ∀ c ∈ s.toList,
          ('a' ≤ c ∧ c ≤ 'z') ∨ ('A' ≤ c ∧ c ≤ 'Z') ∨
          ('0' ≤ c ∧ c ≤ '9') ∨ c = '-' ∨ c = '_')
  ∧ (isValidQueueName (some s) = true ↔
      1 ≤ s.length ∧ s.length ≤ 80 ∧
        ∀ c ∈ s.toList,
          ('a' ≤ c ∧ c ≤ 'z') ∨ ('A' ≤ c ∧ c ≤ 'Z') ∨
          ('0' ≤ c ∧ c ≤ '9') ∨ c = '-' ∨ c = '_')
  ∧ isValidTopicName none = false ∧ isValidQueueName none = false :=
  ⟨isValidName_some_iff s 24 (by decide),
   isValidName_some_iff s 80 (by decide), rfl, rfl⟩

/-- C8 witness: the characterization instantiated at a concrete valid
name. -/
theorem name_validation_characterization_witness :
    isValidTopicName (some "abc") = true ∧ isValidQueueName (some "abc") = true :=
  ⟨((name_validation_characterization "abc").1).mpr (by decide),
   ((name_validation_characterization "abc").2.1).mpr (by decide)⟩

/-- C9: `createSubscription` qualifies its queue under the multi-topic
sentinel when the descriptor lists more than one topic name, and under the
single listed topic name when it lists exactly one. -/
theorem createSubscription_queue_qualification
    (s : SubscriptionDescriptor) (a : String) :
    (1 < s.topicNames.length →
      createSubscriptionQueueTopicName s = MULTIPLE_TOPICS)
  ∧ (s.topicNames = [a] → createSubscriptionQueueTopicName s = a) := by
  constructor
  · intro h
    unfold createSubscriptionQueueTopicName getTopicName
    rw [if_neg (by omega)]
  · intro h
    unfold createSubscriptionQueueTopicName getTopicName
    rw [h]
    rfl

/-- C9 witness: the qualification at the descriptors with topic names
["a", "b"] and ["a"]. -/
theorem createSubscription_queue_qualification_witness :
    createSubscriptionQueueTopicName
      { topicNames := ["a", "b"], queueName := "q", filter := none }
      = MULTIPLE_TOPICS
  ∧ createSubscriptionQueueTopicName
      { topicNames := ["a"], queueName := "q", filter := none } = "a" :=
  ⟨(createSubscription_queue_qualification
      { topicNames := ["a", "b"], queueName := "q", filter := none } "a").1
      (by decide),
   (createSubscription_queue_qualification
      { topicNames := ["a"], queueName := "q", filter := none } "a").2 rfl⟩

/-- C10: when topic-ARN resolution inside `deleteTopic` fails, the error is
not propagated: with working clients the outcome is exactly the provider
delete call issued with an undefined topic ARN, and a clients failure
surfaces as that failure, never the resolution error. -/
theorem deleteTopic_ignores_resolution_error
    (topicName e ce : String)
    (providerDelete : Option String → Except String String)
    (h : isValidTopicName (some topicName) = true) :
    deleteTopic topicName (.error e) (.ok ()) providerDelete
      = providerDelete none
  ∧ deleteTopic topicName (.error e) (.error ce) providerDelete
      = .error ce := by
  unfold deleteTopic
  rw [h]
  simp

/-- C10 witness: a concrete resolution failure whose outcome is the
provider call at the undefined ARN. -/
theorem deleteTopic_ignores_resolution_error_witness :
    deleteTopic "x" (.error "cannot get ARN for x") (.ok ())
      (fun _ => .ok "deleted") = .ok "deleted"
  ∧ deleteTopic "x" (.error "cannot get ARN for x") (.error "no clients")
      (fun _ => .ok "deleted") = .error "no clients" :=
  deleteTopic_ignores_resolution_error "x" "cannot get ARN for x" "no clients"
    (fun _ => .ok "deleted") (by decide)

end AwsCommon
